import Mathlib

/-!
Shallow embedding of the TripAdvisor search scraper
(`src/tripadvisor-scraper/main.py`).

The HTML-selector collaborators ("Page Parser" / "Detail Parser" inputs) are
modelled by structures carrying exactly the data that the Python selectors
extract from a fetched page; the HTTP client is an injected function returning
`Except` (a transport-level exception) of a `Response` (status code plus parsed
page content plus the redirect-final URL).  Python exceptions
(`AssertionError`, `ValueError`, `IndexError`, transport errors) are modelled
as `Except.error` with the corresponding message.  Machine-level caveats: the
results count is modelled as `Nat` (the scraped count text is non-negative),
and `math.ceil(a / b)` on floats is modelled as exact ceiling division, which
agrees with the float computation on all realistically sized page counts.
-/

namespace TripAdvisor

/-- Longest run of leading decimal digits of a character list. -/
def takeDigits : List Char → List Char
  | [] => []
  | c :: cs => if c.isDigit then c :: takeDigits cs else []

/-- Model of the regular-expression search `re_first(r'bubble_(\d+)')`:
scan left to right for the first position where the literal `bubble_` is
followed by at least one digit and return the maximal digit run there;
`none` when no position matches (Python returns `None`). -/
def bubbleScan : List Char → Option String
  | [] => none
  | c :: cs =>
    if List.isPrefixOf "bubble_".toList (c :: cs) then
      (fun ds => if ds.isEmpty then bubbleScan cs else some (String.mk ds))
        (takeDigits (List.drop 7 (c :: cs)))
    else bubbleScan cs

/-- Rating extraction from a class-attribute string, as
`.re_first(r'bubble_(\d+)')` in `scrape_restaurant_details`. -/
def reFirstBubble (s : String) : Option String := bubbleScan s.toList

/-- Whether `pat` occurs as a contiguous substring of `l`. -/
def hasSub (pat : List Char) : List Char → Bool
  | [] => decide (pat = [])
  | c :: cs => List.isPrefixOf pat (c :: cs) || hasSub pat cs

/-- Model of Python `urllib.parse.urljoin` restricted to the shapes this
scraper feeds it: an empty second argument keeps the base, an absolute URL
(one containing the scheme separator) replaces the base, and anything else is
resolved against the base (modelled as appending to it). -/
def urljoin (base url2 : String) : String :=
  if url2 = "" then base
  else if hasSub "://".toList url2.toList then url2
  else base ++ url2

/-- Model of Python `str.strip()`: drop whitespace from both ends. -/
def pyStrip (s : String) : String :=
  String.mk (((s.toList.dropWhile Char.isWhitespace).reverse.dropWhile
    Char.isWhitespace).reverse)

/-- Helper for `pySplitWs`: accumulate the current word (reversed) while
splitting at whitespace runs. -/
def splitWsAux : List Char → List Char → List String
  | [], acc => if acc.isEmpty then [] else [String.mk acc.reverse]
  | c :: cs, acc =>
    if c.isWhitespace then
      if acc.isEmpty then splitWsAux cs [] else String.mk acc.reverse :: splitWsAux cs []
    else splitWsAux cs (c :: acc)

/-- Model of Python `str.split()` with no argument: split on whitespace runs
and drop empty tokens. -/
def pySplitWs (s : String) : List String := splitWsAux s.toList []

/-- Model of Python `int(s)` restricted to the non-negative numerals this
scraper parses: `some` exactly when `s` is a non-empty string of digits. -/
def pyToNat (s : String) : Option Nat :=
  match s.toList with
  | [] => none
  | l =>
    if l.all Char.isDigit then
      some (l.foldl (fun acc c => acc * 10 + (c.toNat - 48)) 0)
    else none

/-- Fuel-indexed worker for `pyReplace`; fuel `s.length` always suffices since
each step consumes at least one character of the remaining list. -/
def replaceFuel (pat rep : List Char) : Nat → List Char → List Char
  | _, [] => []
  | 0, l => l
  | n + 1, c :: cs =>
    if !pat.isEmpty && List.isPrefixOf pat (c :: cs) then
      rep ++ replaceFuel pat rep n (List.drop pat.length (c :: cs))
    else c :: replaceFuel pat rep n cs

/-- Model of Python `str.replace(pat, rep)` for non-empty `pat`: replace every
non-overlapping occurrence, scanning left to right. -/
def pyReplace (s pat rep : String) : String :=
  String.mk (replaceFuel pat.toList rep.toList s.toList.length s.toList)

/-- The `Preview` TypedDict of the source.  `rating` is `Option String`
because at runtime the Python dict stores `None` there whenever
`re_first` finds no match (despite the `str` annotation); the initial
placeholder is `some ""`. -/
structure Preview where
  url : String
  name : String
  numberOfReviews : String
  rating : Option String
  address : String
deriving Repr, DecidableEq

/-- An HTTP response: status code, parsed page content, and the
redirect-final URL (`response.url`). -/
structure Response (α : Type) where
  status : Nat
  page : α
  finalUrl : String
deriving Repr, DecidableEq

/-- What the search-page selectors extract: for each `div.listing` box the
raw `a.property_title` text and `href` attribute, plus the
`span.results_count` text and the next-page link when present. -/
structure SearchPage where
  boxes : List (String × String)
  resultsCountText : Option String
  nextPageHref : Option String
deriving Repr, DecidableEq

/-- What the detail-page selectors extract: `span.address` text,
`span.review_count` text, and the class attribute of
`span.ui_bubble_rating`, each absent when the element is missing. -/
structure DetailPage where
  addressText : Option String
  reviewCountText : Option String
  bubbleClass : Option String
deriving Repr, DecidableEq

/-- A fetcher: the injected HTTP client's `get`, returning either a
transport-level exception or a response. -/
def Fetcher (α : Type) : Type := String → Except String (Response α)

/-- Lines 25-45 of the source, `parse_search_page`: one preview per listing
box, with stripped title, absolutised URL and empty placeholder fields. -/
def parse_search_page (response : Response SearchPage) : List Preview :=
  response.page.boxes.map fun box =>
    { url := urljoin response.finalUrl box.2
      name := pyStrip box.1
      numberOfReviews := ""
      rating := some ""
      address := "" }

/-- Lines 47-60 of the source, `scrape_restaurant_details`: fetch the detail
page, assert status 200 (otherwise the `AssertionError` propagates), and
extract the three detail fields.  The rating is whatever `re_first` returns,
possibly `none`. -/
def scrape_restaurant_details (detailFetch : Fetcher DetailPage)
    (restaurant_url : String) : Except String (String × Option String × String) :=
  match detailFetch restaurant_url with
  | .error e => .error e
  | .ok response =>
    if response.status = 200 then
      .ok (pyStrip (response.page.reviewCountText.getD ""),
        Option.bind response.page.bubbleClass reFirstBubble,
        pyStrip (response.page.addressText.getD ""))
    else .error "Failed to retrieve restaurant page"

/-- Line 77 of the source:
`int(total_results_text.split()[0].replace(",", "")) if total_results_text else 0`.
Empty text gives 0; whitespace-only text raises `IndexError` on `[0]`; a
first token that is not a numeral after comma removal raises `ValueError`.
Neither exception is caught in the source. -/
def parseTotalResults (text : String) : Except String Nat :=
  if text = "" then .ok 0
  else
    match pySplitWs text with
    | [] => .error "IndexError: list index out of range"
    | tok :: _ =>
      match pyToNat (pyReplace tok "," "") with
      | some n => .ok n
      | none => .error "ValueError: invalid literal for int"

/-- Line 80 of the source:
`total_pages = int(math.ceil(total_results / page_size)) if total_results else 1`. -/
def total_pages_of (total_results page_size : Nat) : Nat :=
  if total_results ≠ 0 then (total_results + page_size - 1) / page_size else 1

/-- Lines 83-85 of the source: `if max_pages and total_pages > max_pages:
total_pages = max_pages`.  Python treats `max_pages = 0` as falsy, so a zero
cap is ignored exactly like `None`. -/
def clampPages (max_pages : Option Nat) (total_pages : Nat) : Nat :=
  match max_pages with
  | none => total_pages
  | some m => if m ≠ 0 ∧ total_pages > m then m else total_pages

/-- Lines 90-93 of the source: the crawl plan.  For `i` in
`range(1, total_pages)` substitute the pagination offset token
`oa<page_size>` of the next-page URL by `oa<page_size * i>`; the plan is
empty when there is no next-page URL. -/
def other_page_urls (next_page_url : Option String) (page_size total_pages : Nat) :
    List String :=
  match next_page_url with
  | none => []
  | some npu =>
    (List.range' 1 (total_pages - 1)).map fun i =>
      pyReplace npu ("oa" ++ toString page_size) ("oa" ++ toString (page_size * i))

/-- Lines 96-98 of the source: fetch every planned page and extend the
results with its parsed previews.  There is no status check and no exception
handler: a transport error from any `await` propagates out.  The concurrent
`as_completed` completion order is determinised to plan order; none of the
verified properties depends on the order among secondary pages. -/
def crawlPages (searchFetch : Fetcher SearchPage) : List String → Except String (List Preview)
  | [] => .ok []
  | u :: us =>
    match searchFetch u with
    | .error e => .error e
    | .ok response =>
      match crawlPages searchFetch us with
      | .error e => .error e
      | .ok rest => .ok (parse_search_page response ++ rest)

/-- Lines 101-105 of the source: the sequential enrichment loop.  Each
record's three detail fields are overwritten from its detail page; an
exception from `scrape_restaurant_details` aborts the whole loop. -/
def enrich (detailFetch : Fetcher DetailPage) : List Preview → Except String (List Preview)
  | [] => .ok []
  | r :: rs =>
    match scrape_restaurant_details detailFetch r.url with
    | .error e => .error e
    | .ok (n, rt, a) =>
      match enrich detailFetch rs with
      | .error e => .error e
      | .ok rest =>
        .ok ({ r with numberOfReviews := n, rating := rt, address := a } :: rest)

/-- Lines 62-107 of the source, `scrape_search`: fetch the first page, assert
status 200, parse it, return `[]` when it has no previews, otherwise extract
pagination metadata, plan and crawl the remaining pages, and enrich every
record. -/
def scrape_search (searchFetch : Fetcher SearchPage) (detailFetch : Fetcher DetailPage)
    (url : String) (max_pages : Option Nat) : Except String (List Preview) :=
  match searchFetch url with
  | .error e => .error e
  | .ok first_page =>
    if first_page.status = 200 then
      (fun results =>
        if results.isEmpty then .ok []
        else
          match parseTotalResults (first_page.page.resultsCountText.getD "") with
          | .error e => .error e
          | .ok total_results =>
            (fun next_page_url =>
              (fun total_pages =>
                match crawlPages searchFetch
                    (other_page_urls next_page_url results.length total_pages) with
                | .error e => .error e
                | .ok more => enrich detailFetch (results ++ more))
              (clampPages max_pages (total_pages_of total_results results.length)))
            (match first_page.page.nextPageHref with
             | none => none
             | some h => if h = "" then none else some (urljoin url h)))
        (parse_search_page first_page)
    else .error "Scraper is being blocked"

/-- Variant of `total_pages_of` that raises Python's `ZeroDivisionError`
whenever the division `total_results / page_size` would actually be evaluated
with `page_size = 0`. -/
def total_pages_checked (total_results page_size : Nat) : Except String Nat :=
  if total_results ≠ 0 then
    if page_size = 0 then .error "ZeroDivisionError: division by zero"
    else .ok ((total_results + page_size - 1) / page_size)
  else .ok 1

/-- `scrape_search` with the division guarded by `total_pages_checked`; used
to state that the scraper never divides by zero. -/
def scrape_search_checked (searchFetch : Fetcher SearchPage) (detailFetch : Fetcher DetailPage)
    (url : String) (max_pages : Option Nat) : Except String (List Preview) :=
  match searchFetch url with
  | .error e => .error e
  | .ok first_page =>
    if first_page.status = 200 then
      (fun results =>
        if results.isEmpty then .ok []
        else
          match parseTotalResults (first_page.page.resultsCountText.getD "") with
          | .error e => .error e
          | .ok total_results =>
            (fun next_page_url =>
              match total_pages_checked total_results results.length with
              | .error e => .error e
              | .ok tp =>
                match crawlPages searchFetch
                    (other_page_urls next_page_url results.length (clampPages max_pages tp)) with
                | .error e => .error e
                | .ok more => enrich detailFetch (results ++ more))
            (match first_page.page.nextPageHref with
             | none => none
             | some h => if h = "" then none else some (urljoin url h)))
        (parse_search_page first_page)
    else .error "Scraper is being blocked"

/-- C3: for every first page with pageSize P > 0 and totalResults T > 0 the
computed totalPages is exactly the ceiling of T / P — it is an upper bound
(T ≤ P * totalPages) and the least such bound — with ceil(95/30) = 4 as the
spec's example; when totalResults is 0 or its text is missing, totalPages is
1, and a 1-page total plans no extra pages. -/
theorem c3_total_pages_ceiling :
    (∀ P T : Nat, 0 < P → 0 < T →
      T ≤ P * total_pages_of T P ∧ ∀ n, T ≤ P * n → total_pages_of T P ≤ n) ∧
    total_pages_of 95 30 = 4 ∧
    (∀ P, total_pages_of 0 P = 1) ∧
    parseTotalResults "" = .ok 0 ∧
    (∀ npu P, other_page_urls npu P 1 = []) := by
  refine ⟨?_, by decide, fun P => by simp [total_pages_of], rfl, fun npu P => ?_⟩
  · intro P T hP hT
    have htp : total_pages_of T P = (T + P - 1) / P := by
      simp [total_pages_of, Nat.pos_iff_ne_zero.mp hT]
    constructor
    · have h := (Nat.div_le_iff_le_mul_add_pred hP).mp
        (Nat.le_refl ((T + P - 1) / P))
      rw [htp]
      omega
    · intro n hn
      rw [htp]
      exact (Nat.div_le_iff_le_mul_add_pred hP).mpr (by omega)
  · cases npu with
    | none => rfl
    | some u => rfl

/-- C3 witness: at P = 30, T = 95 the bound and leastness hold concretely. -/
theorem c3_witness : 95 ≤ 30 * total_pages_of 95 30 ∧ total_pages_of 95 30 ≤ 4 :=
  ⟨(c3_total_pages_ceiling.1 30 95 (by decide) (by decide)).1,
   (c3_total_pages_ceiling.1 30 95 (by decide) (by decide)).2 4 (by decide)⟩

/-- C4: with a next-page URL present the plan has totalPages − 1 entries and
the entry for page i (2 ≤ i ≤ totalPages, stored at position i − 2) is the
next-page URL with the offset token oa(pageSize) substituted by
oa(pageSize⬝(i−1)); with no next-page URL the plan is empty regardless of
totalPages. -/
theorem c4_page_url_derivation :
    (∀ ps N, other_page_urls none ps N = []) ∧
    (∀ npu ps N i, 2 ≤ i → i ≤ N →
      (other_page_urls (some npu) ps N).length = N - 1 ∧
      (other_page_urls (some npu) ps N)[i - 2]? =
        some (pyReplace npu ("oa" ++ toString ps) ("oa" ++ toString (ps * (i - 1))))) := by
  refine ⟨fun ps N => rfl, fun npu ps N i h2 hN => ⟨?_, ?_⟩⟩
  · simp [other_page_urls]
  · have hm : i - 2 < N - 1 := by omega
    simp only [other_page_urls, List.getElem?_map, List.getElem?_range' 1 1 hm,
      Option.map_some]
    have : 1 + 1 * (i - 2) = i - 1 := by omega
    rw [this]
    rfl

/-- C4 witness: with next-page URL `...?oa30`, pageSize 30 and totalPages 4,
page 3 is planned at position 1 with offset token oa60. -/
theorem c4_witness :
    (other_page_urls (some "https://x.example/s?oa30") 30 4)[(1 : Nat)]? =
      some (pyReplace "https://x.example/s?oa30" ("oa" ++ toString 30)
        ("oa" ++ toString (30 * (3 - 1)))) :=
  (c4_page_url_derivation.2 "https://x.example/s?oa30" 30 4 3 (by decide) (by decide)).2

/-- C6 counterexample: maxPages = 0 is a set cap that computed totalPages 5
exceeds, yet the code leaves totalPages at 5 instead of clamping it to 0
(Python treats 0 as falsy), and with a next-page URL present the plan still
contains 4 additional page URLs. -/
theorem c6_counterexample :
    total_pages_of 150 30 = 5 ∧
    clampPages (some 0) 5 = 5 ∧
    clampPages (some 0) 5 ≠ 0 ∧
    (other_page_urls (some "https://x.example/s?oa30") 30
      (clampPages (some 0) (total_pages_of 150 30))).length = 4 := by
  refine ⟨rfl, rfl, by decide, ?_⟩
  simp [other_page_urls, clampPages, total_pages_of]

/-- C6 amended: for every crawl where maxPages is set to a positive value and
computed totalPages exceeds it, totalPages is clamped to maxPages; with
maxPages = 2, computed totalPages = 5 and a next-page URL present the plan
has exactly 1 additional page URL, so 2 pages are fetched in total. -/
theorem c6_max_pages_clamp :
    (∀ m tp, 0 < m → m < tp → clampPages (some m) tp = m) ∧
    (∀ npu ps, (other_page_urls (some npu) ps (clampPages (some 2) 5)).length = 1) := by
  constructor
  · intro m tp hm hlt
    simp only [clampPages]
    rw [if_pos ⟨by omega, hlt⟩]
  · intro npu ps
    simp [other_page_urls, clampPages]

/-- C6 witness: a cap of 2 clamps a computed total of 5 pages to 2, and the
concrete plan for that crawl holds exactly one URL. -/
theorem c6_witness :
    clampPages (some 2) 5 = 2 ∧
    (other_page_urls (some "https://x.example/t?oa10") 10 (clampPages (some 2) 5)).length = 1 :=
  ⟨c6_max_pages_clamp.1 2 5 (by decide) (by decide),
   c6_max_pages_clamp.2 "https://x.example/t?oa10" 10⟩

/-- First-page fixture for the C7 witness: the fetch resolves but with a 503
status. -/
def c7resp : Response SearchPage :=
  { status := 503
    page := { boxes := [], resultsCountText := none, nextPageHref := none }
    finalUrl := "https://t7.example/s" }

/-- Search fetcher for the C7 witness. -/
def c7sf : Fetcher SearchPage := fun _ => .ok c7resp

/-- Detail fetcher for the C7 witness (never reached). -/
def c7df : Fetcher DetailPage := fun _ => .error "unreachable"

/-- C7: whenever the first-page fetch resolves with a non-success status, the
whole operation fails with the fatal assertion error and no result list (not
even a partial one) is returned. -/
theorem c7_first_page_failure_fatal
    (sf : Fetcher SearchPage) (df : Fetcher DetailPage) (url : String)
    (mp : Option Nat) (resp : Response SearchPage)
    (hok : sf url = .ok resp) (hst : resp.status ≠ 200) :
    scrape_search sf df url mp = .error "Scraper is being blocked" := by
  simp [scrape_search, hok, hst]

/-- C7 witness: a concrete 503 first page makes the whole crawl fail. -/
theorem c7_witness :
    scrape_search c7sf c7df "https://t7.example/s" none = .error "Scraper is being blocked" :=
  c7_first_page_failure_fatal c7sf c7df "https://t7.example/s" none c7resp rfl (by decide)

/-- Helper: with a positive page size the checked division agrees with the
unchecked one, i.e. the ZeroDivisionError branch is dead. -/
theorem total_pages_checked_of_pos (T P : Nat) (hP : P ≠ 0) :
    total_pages_checked T P = .ok (total_pages_of T P) := by
  by_cases hT : T = 0 <;> simp [total_pages_checked, total_pages_of, hT, hP]

/-- C9: the division computing totalPages never divides by zero — the variant
of the scraper that raises ZeroDivisionError whenever the divisor pageSize is
zero behaves identically to the scraper, because pageSize is the length of a
first-page preview list already checked to be non-empty; and an empty first
page returns the empty result immediately, planning no further pages. -/
theorem c9_no_division_by_zero
    (sf : Fetcher SearchPage) (df : Fetcher DetailPage) (url : String) (mp : Option Nat) :
    scrape_search_checked sf df url mp = scrape_search sf df url mp ∧
    (∀ resp, sf url = .ok resp → resp.status = 200 → parse_search_page resp = [] →
      scrape_search sf df url mp = .ok []) := by
  constructor
  · cases hfp : sf url with
    | error e => simp [scrape_search, scrape_search_checked, hfp]
    | ok fp =>
      by_cases hs : fp.status = 200
      · cases hres : (parse_search_page fp).isEmpty with
        | true => simp [scrape_search, scrape_search_checked, hfp, hs, hres]
        | false =>
          have hlen : (parse_search_page fp).length ≠ 0 := by
            have := List.isEmpty_eq_false.mp hres
            simpa [List.length_eq_zero] using this
          cases hpt : parseTotalResults (fp.page.resultsCountText.getD "") with
          | error e =>
            simp [scrape_search, scrape_search_checked, hfp, hs, hres, hpt]
          | ok T =>
            simp [scrape_search, scrape_search_checked, hfp, hs, hres, hpt,
              total_pages_checked_of_pos T _ hlen]
      · simp [scrape_search, scrape_search_checked, hfp, hs]
  · intro resp hok hst hemp
    simp [scrape_search, hok, hst, hemp, List.isEmpty_nil]

/-- First-page fixture for the C9 witness: a 200 response with no listing
boxes. -/
def c9resp : Response SearchPage :=
  { status := 200
    page := { boxes := [], resultsCountText := some "95 results"
              nextPageHref := some "https://t9.example/s?oa30" }
    finalUrl := "https://t9.example/s" }

/-- Search fetcher for the C9 witness. -/
def c9sf : Fetcher SearchPage := fun _ => .ok c9resp

/-- Detail fetcher for the C9 witness (never reached). -/
def c9df : Fetcher DetailPage := fun _ => .error "unreachable"

/-- C9 witness: a concrete empty first page yields the empty result and the
checked scraper agrees. -/
theorem c9_witness :
    scrape_search c9sf c9df "https://t9.example/s" none = .ok [] :=
  (c9_no_division_by_zero c9sf c9df "https://t9.example/s" none).2 c9resp rfl rfl rfl

/-- First page for the C1 counterexample: two listed restaurants, no
pagination. -/
def c1firstPage : Response SearchPage :=
  { status := 200
    page := { boxes := [("R1", "https://t1.example/r1"), ("R2", "https://t1.example/r2")]
              resultsCountText := none
              nextPageHref := none }
    finalUrl := "https://t1.example/s" }

/-- Search fetcher for the C1 counterexample. -/
def c1sf : Fetcher SearchPage := fun _ => .ok c1firstPage

/-- Detail fetcher for the C1 counterexample: the first restaurant's page
succeeds, the second responds with status 503. -/
def c1df : Fetcher DetailPage := fun u =>
  if u = "https://t1.example/r1" then
    .ok { status := 200
          page := { addressText := some "1 Main St", reviewCountText := some "7 reviews"
                    bubbleClass := some "ui_bubble_rating bubble_40" }
          finalUrl := u }
  else if u = "https://t1.example/r2" then
    .ok { status := 503
          page := { addressText := none, reviewCountText := none, bubbleClass := none }
          finalUrl := u }
  else .error "unknown url"

/-- C1 counterexample: the second preview's detail fetch fails (status 503),
and instead of keeping that record with empty defaults while enriching the
others, the whole operation aborts with the assertion error — no final output
list exists at all. -/
theorem c1_counterexample :
    (∃ resp, c1df "https://t1.example/r2" = .ok resp ∧ resp.status ≠ 200) ∧
    (parse_search_page c1firstPage).map Preview.url =
      ["https://t1.example/r1", "https://t1.example/r2"] ∧
    scrape_search c1sf c1df "https://t1.example/s" none =
      .error "Failed to retrieve restaurant page" := by
  refine ⟨⟨{ status := 503
             page := { addressText := none, reviewCountText := none, bubbleClass := none }
             finalUrl := "https://t1.example/r2" }, rfl, by decide⟩, rfl, rfl⟩

/-- C1 amended: when any preview record's detail-page fetch resolves with a
non-success status, the enrichment step aborts the whole operation with an
error (the assertion propagates), so no enriched output — neither that record
nor the records before or after it — is returned. -/
theorem c1_detail_failure_aborts
    (df : Fetcher DetailPage) (previews : List Preview) (r : Preview)
    (resp : Response DetailPage) (hmem : r ∈ previews)
    (hdf : df r.url = .ok resp) (hst : resp.status ≠ 200) :
    ∃ e, enrich df previews = .error e := by
  induction previews with
  | nil => cases hmem
  | cons p ps ih =>
    cases hd : scrape_restaurant_details df p.url with
    | error e => exact ⟨e, by simp [enrich, hd]⟩
    | ok v =>
      rcases List.mem_cons.mp hmem with hrp | hmem2
      · subst hrp
        unfold scrape_restaurant_details at hd
        rw [hdf] at hd
        simp [hst] at hd
      · obtain ⟨e, he⟩ := ih hmem2
        obtain ⟨n, rt, a⟩ := v
        exact ⟨e, by simp [enrich, hd, he]⟩

/-- Detail response for the C1 witness: status 500. -/
def c1wresp : Response DetailPage :=
  { status := 500
    page := { addressText := none, reviewCountText := none, bubbleClass := none }
    finalUrl := "https://t1w.example/r" }

/-- Detail fetcher for the C1 witness. -/
def c1wdf : Fetcher DetailPage := fun _ => .ok c1wresp

/-- Preview record for the C1 witness. -/
def c1wpv : Preview :=
  { url := "https://t1w.example/r", name := "W", numberOfReviews := ""
    rating := some "", address := "" }

/-- C1 witness: a concrete one-record list whose detail fetch returns 500
makes the enrichment error out. -/
theorem c1_witness : ∃ e, enrich c1wdf [c1wpv] = Except.error e :=
  c1_detail_failure_aborts c1wdf [c1wpv] c1wpv c1wresp (List.mem_singleton.mpr rfl)
    rfl (by decide)

/-- C10: whenever the enrichment step succeeds, it preserves the preview
list's length and order, and every record keeps its url and name unchanged
(only the three detail fields are rewritten). -/
theorem c10_enrich_frame
    (df : Fetcher DetailPage) (previews out : List Preview)
    (hok : enrich df previews = .ok out) :
    out.length = previews.length ∧
    ∀ i (h1 : i < out.length) (h2 : i < previews.length),
      (out.get ⟨i, h1⟩).url = (previews.get ⟨i, h2⟩).url ∧
      (out.get ⟨i, h1⟩).name = (previews.get ⟨i, h2⟩).name := by
  induction previews generalizing out with
  | nil =>
    simp only [enrich, Except.ok.injEq] at hok
    subst hok
    exact ⟨rfl, fun i h1 h2 => absurd h1 (by simp)⟩
  | cons p ps ih =>
    rw [enrich] at hok
    cases hd : scrape_restaurant_details df p.url with
    | error e => rw [hd] at hok; cases hok
    | ok v =>
      obtain ⟨n, rt, a⟩ := v
      rw [hd] at hok
      cases he : enrich df ps with
      | error e => rw [he] at hok; cases hok
      | ok rest =>
        rw [he] at hok
        simp only [Except.ok.injEq] at hok
        subst hok
        obtain ⟨hlen, hfields⟩ := ih rest he
        refine ⟨by simp [hlen], ?_⟩
        intro i h1 h2
        cases i with
        | zero => exact ⟨rfl, rfl⟩
        | succ j =>
          exact hfields j (Nat.lt_of_succ_lt_succ h1) (Nat.lt_of_succ_lt_succ h2)

/-- Detail fetcher for the C10 witness. -/
def c10df : Fetcher DetailPage := fun u =>
  .ok { status := 200
        page := { addressText := some "A st", reviewCountText := some "3 reviews"
                  bubbleClass := some "bubble_40" }
        finalUrl := u }

/-- Preview for the C10 witness. -/
def c10p : Preview :=
  { url := "https://t10.example/r1", name := "R1", numberOfReviews := ""
    rating := some "", address := "" }

/-- The concrete enriched output for the C10 witness. -/
def c10out : List Preview :=
  [{ url := "https://t10.example/r1", name := "R1", numberOfReviews := "3 reviews"
     rating := some "40", address := "A st" }]

/-- C10 witness: a concrete successful enrichment preserves length and the
url of the single record. -/
theorem c10_witness :
    c10out.length = [c10p].length ∧
    (c10out.get ⟨0, Nat.one_pos⟩).url = ([c10p].get ⟨0, Nat.one_pos⟩).url :=
  ⟨(c10_enrich_frame c10df [c10p] c10out rfl).1,
   ((c10_enrich_frame c10df [c10p] c10out rfl).2 0 Nat.one_pos Nat.one_pos).1⟩

/-- First page for the C2 counterexample: 2 previews per page, 8 total
results (4 pages), with a next-page URL carrying the offset token oa2. -/
def c2firstPage : Response SearchPage :=
  { status := 200
    page := { boxes := [("A", "https://t2.example/a"), ("B", "https://t2.example/b")]
              resultsCountText := some "8 results"
              nextPageHref := some "https://t2.example/s?oa2" }
    finalUrl := "https://t2.example/s" }

/-- Search fetcher for the C2 counterexample: of the three planned secondary
pages (oa2, oa4, oa6), the oa4 fetch raises a transport error. -/
def c2sf : Fetcher SearchPage := fun u =>
  if u = "https://t2.example/s" then .ok c2firstPage
  else if u = "https://t2.example/s?oa2" then
    .ok { status := 200
          page := { boxes := [("C", "https://t2.example/c")], resultsCountText := none
                    nextPageHref := none }
          finalUrl := u }
  else if u = "https://t2.example/s?oa4" then .error "httpx.ConnectError: connection failed"
  else if u = "https://t2.example/s?oa6" then
    .ok { status := 200
          page := { boxes := [("D", "https://t2.example/d")], resultsCountText := none
                    nextPageHref := none }
          finalUrl := u }
  else .error "unknown url"

/-- Detail fetcher for the C2 counterexample (never reached). -/
def c2df : Fetcher DetailPage := fun u =>
  .ok { status := 200
        page := { addressText := none, reviewCountText := none, bubbleClass := none }
        finalUrl := u }

/-- C2 counterexample: one of three planned secondary pages raises a
transport error, and instead of dropping that page's contribution the
exception escapes the top-level call — no preview count is ever produced. -/
theorem c2_counterexample :
    c2sf "https://t2.example/s?oa4" = .error "httpx.ConnectError: connection failed" ∧
    scrape_search c2sf c2df "https://t2.example/s" none =
      .error "httpx.ConnectError: connection failed" :=
  ⟨rfl, rfl⟩

/-- C2 amended: if the fetch of any planned secondary page raises a transport
error, the error propagates out of the page crawl (and hence out of the
top-level call) — the crawl aborts rather than dropping the page; and
secondary responses are never status-checked: when every planned fetch
returns a response, every page's parsed previews are concatenated into the
result whatever its status code. -/
theorem c2_secondary_page_failure :
    (∀ (sf : Fetcher SearchPage) (urls : List String) (u e : String),
      u ∈ urls → sf u = .error e → ∃ e2, crawlPages sf urls = .error e2) ∧
    (∀ (sf : Fetcher SearchPage) (urls : List String),
      (∀ u ∈ urls, ∃ r, sf u = .ok r) →
      crawlPages sf urls = .ok (urls.map (fun u =>
        match sf u with
        | .ok r => parse_search_page r
        | .error _ => [])).flatten) := by
  constructor
  · intro sf urls u e hmem herr
    induction urls with
    | nil => cases hmem
    | cons v vs ih =>
      cases hv : sf v with
      | error e0 => exact ⟨e0, by simp [crawlPages, hv]⟩
      | ok r =>
        rcases List.mem_cons.mp hmem with huv | hmem2
        · subst huv
          rw [herr] at hv
          cases hv
        · obtain ⟨e2, h2⟩ := ih hmem2
          exact ⟨e2, by simp [crawlPages, hv, h2]⟩
  · intro sf urls h
    induction urls with
    | nil => simp [crawlPages]
    | cons v vs ih =>
      obtain ⟨r, hr⟩ := h v (List.mem_cons_self v vs)
      have ih2 := ih fun u hu => h u (List.mem_cons_of_mem v hu)
      simp [crawlPages, hr, ih2]

/-- Search fetcher for the C2 witness: page b errors. -/
def c2wsf : Fetcher SearchPage := fun u =>
  if u = "https://t2w.example/b" then .error "boom"
  else
    .ok { status := 200
          page := { boxes := [], resultsCountText := none, nextPageHref := none }
          finalUrl := u }

/-- C2 witness: a concrete two-page plan whose second page fetch raises
makes the page crawl error out. -/
theorem c2_witness :
    ∃ e2, crawlPages c2wsf ["https://t2w.example/a", "https://t2w.example/b"] =
      Except.error e2 :=
  c2_secondary_page_failure.1 c2wsf ["https://t2w.example/a", "https://t2w.example/b"]
    "https://t2w.example/b" "boom" (by simp) rfl

/-- First page for the C5 counterexample: one preview, and a results-count
text whose first token is not a numeral. -/
def c5fp : Response SearchPage :=
  { status := 200
    page := { boxes := [("A", "https://t5.example/a")]
              resultsCountText := some "About 95"
              nextPageHref := none }
    finalUrl := "https://t5.example/s" }

/-- Search fetcher for the C5 counterexample. -/
def c5sf : Fetcher SearchPage := fun _ => .ok c5fp

/-- Detail fetcher for the C5 counterexample (never reached). -/
def c5df : Fetcher DetailPage := fun _ => .error "unreachable"

/-- C5 counterexample: on the malformed results-count text `About 95` the
parse raises ValueError and the error is not caught — the whole call returns
it instead of treating the count as 0. -/
theorem c5_counterexample :
    parseTotalResults "About 95" = .error "ValueError: invalid literal for int" ∧
    scrape_search c5sf c5df "https://t5.example/s" none =
      .error "ValueError: invalid literal for int" :=
  ⟨rfl, rfl⟩

/-- C5 amended: a missing or empty results-count text is treated as
totalResults 0 (single-page fallback), but a non-empty malformed text makes
the parse raise, and the exception propagates out of the top-level call to
the caller. -/
theorem c5_total_results_parse :
    parseTotalResults "" = .ok 0 ∧
    (∀ (sf : Fetcher SearchPage) (df : Fetcher DetailPage) (url : String)
      (mp : Option Nat) (fp : Response SearchPage) (e : String),
      sf url = .ok fp → fp.status = 200 → (parse_search_page fp).isEmpty = false →
      parseTotalResults (fp.page.resultsCountText.getD "") = .error e →
      scrape_search sf df url mp = .error e) := by
  refine ⟨rfl, ?_⟩
  intro sf df url mp fp e hok hst hne herr
  simp [scrape_search, hok, hst, hne, herr]

/-- C5 witness: the malformed count text of the concrete first page
propagates its ValueError out of the scraper. -/
theorem c5_witness :
    scrape_search c5sf c5df "https://t5.example/s" none =
      .error "ValueError: invalid literal for int" :=
  c5_total_results_parse.2 c5sf c5df "https://t5.example/s" none c5fp
    "ValueError: invalid literal for int" rfl rfl rfl rfl

/-- First page for the C8 evaluation: a single listed restaurant. -/
def c8fp : Response SearchPage :=
  { status := 200
    page := { boxes := [("R1", "https://t8.example/r1")]
              resultsCountText := none
              nextPageHref := none }
    finalUrl := "https://t8.example/s" }

/-- Search fetcher for the C8 evaluation. -/
def c8sf : Fetcher SearchPage := fun _ => .ok c8fp

/-- Detail fetcher for the C8 evaluation: the rating element's class
attribute holds no `bubble_` digit token, so the pattern match finds
nothing. -/
def c8df : Fetcher DetailPage := fun u =>
  .ok { status := 200
        page := { addressText := some "Addr 1", reviewCountText := some "12 reviews"
                  bubbleClass := some "ui_bubble_rating" }
        finalUrl := u }

/-- C8: evaluation at the failing input — when the rating pattern match finds
no match, `re_first` yields the null value, and the final record is emitted
with `rating = none` rather than the empty string promised by the record's
own `rating: str` declaration. -/
theorem c8_rating_none_on_no_match :
    reFirstBubble "ui_bubble_rating" = none ∧
    scrape_search c8sf c8df "https://t8.example/s" none =
      .ok [{ url := "https://t8.example/r1", name := "R1", numberOfReviews := "12 reviews"
             rating := none, address := "Addr 1" }] :=
  ⟨rfl, rfl⟩

end TripAdvisor
